import Mathlib

/-!
Verification of the commandcenter desktop bridge
(`src/desktop/src-tauri/src/python_bridge.rs` and
`src/desktop/src-tauri/src/commands.rs`).

The bridge is modelled shallowly:

* captured process streams are raw byte lists, decoded with a model of
  `String::from_utf8_lossy` (Unicode replacement of maximal invalid
  subparts, as in the Rust standard library);
* `serde_json::from_str` is modelled by an executable recursive-descent
  JSON parser over the full JSON grammar (numbers are kept as their
  lexemes, since the bridge treats the payload as opaque);
* process spawning is an oracle `String → SpawnResult`: for a launcher
  candidate it either fails to create a process (`SpawnResult.failed`,
  the `Err` branch of `Command::output`) or yields an exit code and the
  two captured streams (`SpawnResult.ran`);
* `call_python_api` becomes `callPythonApi`, a fold over the candidate
  list `["python", "python3", "uv run python"]` threading the single
  mutable `last_error` slot exactly as the source loop does.
-/

/-! ## Bytes and lossy UTF-8 decoding (`String::from_utf8_lossy`) -/

/-- The Unicode replacement character U+FFFD. -/
def replacementChar : Char := Char.ofNat 0xFFFD

/-- A UTF-8 continuation byte (`0x80 ..= 0xBF`). -/
def isCont (b : UInt8) : Bool := decide (0x80 ≤ b.toNat ∧ b.toNat ≤ 0xBF)

/-- Admissible second byte of a three-byte UTF-8 sequence headed by `b`. -/
def utf8Second3 (b b2 : UInt8) : Bool :=
  if b = 0xE0 then decide (0xA0 ≤ b2.toNat ∧ b2.toNat ≤ 0xBF)
  else if b = 0xED then decide (0x80 ≤ b2.toNat ∧ b2.toNat ≤ 0x9F)
  else isCont b2

/-- Admissible second byte of a four-byte UTF-8 sequence headed by `b`. -/
def utf8Second4 (b b2 : UInt8) : Bool :=
  if b = 0xF0 then decide (0x90 ≤ b2.toNat ∧ b2.toNat ≤ 0xBF)
  else if b = 0xF4 then decide (0x80 ≤ b2.toNat ∧ b2.toNat ≤ 0x8F)
  else isCont b2

/-- Lossy UTF-8 decoding of a byte list, following the algorithm of Rust's
`String::from_utf8_lossy`: each maximal invalid subpart is replaced by one
U+FFFD and decoding continues; no input is ever rejected.  The `fuel`
argument only makes the recursion structural (each step consumes at least
one byte and one unit of fuel, so `fuel = length` never runs out); it lets
the kernel evaluate the function on concrete inputs. -/
def utf8LossyAux : Nat → List UInt8 → List Char
  | _, [] => []
  | 0, _ :: _ => []
  | fuel + 1, b :: rest =>
    if b.toNat ≤ 0x7F then
      Char.ofNat b.toNat :: utf8LossyAux fuel rest
    else if 0xC2 ≤ b.toNat ∧ b.toNat ≤ 0xDF then
      match rest with
      | [] => [replacementChar]
      | b2 :: rest2 =>
        if isCont b2 then
          Char.ofNat ((b.toNat % 0x20) * 0x40 + b2.toNat % 0x40) :: utf8LossyAux fuel rest2
        else replacementChar :: utf8LossyAux fuel (b2 :: rest2)
    else if 0xE0 ≤ b.toNat ∧ b.toNat ≤ 0xEF then
      match rest with
      | [] => [replacementChar]
      | b2 :: rest2 =>
        if utf8Second3 b b2 then
          match rest2 with
          | [] => [replacementChar]
          | b3 :: rest3 =>
            if isCont b3 then
              Char.ofNat ((b.toNat % 0x10) * 0x1000 + (b2.toNat % 0x40) * 0x40 +
                b3.toNat % 0x40) :: utf8LossyAux fuel rest3
            else replacementChar :: utf8LossyAux fuel (b3 :: rest3)
        else replacementChar :: utf8LossyAux fuel (b2 :: rest2)
    else if 0xF0 ≤ b.toNat ∧ b.toNat ≤ 0xF4 then
      match rest with
      | [] => [replacementChar]
      | b2 :: rest2 =>
        if utf8Second4 b b2 then
          match rest2 with
          | [] => [replacementChar]
          | b3 :: rest3 =>
            if isCont b3 then
              match rest3 with
              | [] => [replacementChar]
              | b4 :: rest4 =>
                if isCont b4 then
                  Char.ofNat ((b.toNat % 0x8) * 0x40000 + (b2.toNat % 0x40) * 0x1000 +
                    (b3.toNat % 0x40) * 0x40 + b4.toNat % 0x40) :: utf8LossyAux fuel rest4
                else replacementChar :: utf8LossyAux fuel (b4 :: rest4)
            else replacementChar :: utf8LossyAux fuel (b3 :: rest3)
        else replacementChar :: utf8LossyAux fuel (b2 :: rest2)
    else replacementChar :: utf8LossyAux fuel rest

/-- `String::from_utf8_lossy`, as a total function on byte lists. -/
def utf8Lossy (bs : List UInt8) : String := String.mk (utf8LossyAux bs.length bs)

/-- The UTF-8 bytes of an ASCII string (used to build concrete stream
contents in scenarios; on ASCII, UTF-8 is the identity byte-for-byte). -/
def asciiBytes (s : String) : List UInt8 := s.data.map (fun c => UInt8.ofNat c.toNat)

/-! ## JSON values and parsing (model of `serde_json::from_str`) -/

/-- JSON values as produced by the parser.  Numbers are kept as their
source lexeme: the bridge never inspects numeric values, it returns the
parsed document verbatim, so the lexeme is a faithful opaque carrier. -/
inductive Json where
  | null : Json
  | bool (b : Bool) : Json
  | num (lexeme : String) : Json
  | str (s : String) : Json
  | arr (elems : List Json) : Json
  | obj (members : List (String × Json)) : Json

/-- JSON insignificant whitespace. -/
def isJsonWs (c : Char) : Bool := c = ' ' || c = '\t' || c = '\n' || c = '\r'

/-- Drop leading JSON whitespace. -/
def skipWs : List Char → List Char
  | [] => []
  | c :: cs => if isJsonWs c then skipWs cs else c :: cs

/-- Expect the literal characters `lit` at the head of the input. -/
def expectChars : List Char → List Char → Option (List Char)
  | [], cs => some cs
  | _ :: _, [] => none
  | e :: es, c :: cs => if c = e then expectChars es cs else none

/-- Value of one hexadecimal digit. -/
def hexDigitVal (c : Char) : Option Nat :=
  if '0' ≤ c ∧ c ≤ '9' then some (c.toNat - '0'.toNat)
  else if 'a' ≤ c ∧ c ≤ 'f' then some (c.toNat - 'a'.toNat + 10)
  else if 'A' ≤ c ∧ c ≤ 'F' then some (c.toNat - 'A'.toNat + 10)
  else none

/-- Parse the remainder of a JSON string literal (the opening quote is
already consumed); `acc` holds the decoded characters in reverse. -/
def parseStringRest (acc : List Char) : List Char → Except String (String × List Char)
  | [] => Except.error "EOF while parsing a string"
  | c :: cs =>
    if c = '"' then Except.ok (String.mk acc.reverse, cs)
    else if c = '\\' then
      match cs with
      | [] => Except.error "EOF while parsing a string"
      | e :: cs2 =>
        if e = '"' then parseStringRest ('"' :: acc) cs2
        else if e = '\\' then parseStringRest ('\\' :: acc) cs2
        else if e = '/' then parseStringRest ('/' :: acc) cs2
        else if e = 'b' then parseStringRest (Char.ofNat 0x8 :: acc) cs2
        else if e = 'f' then parseStringRest (Char.ofNat 0xC :: acc) cs2
        else if e = 'n' then parseStringRest (Char.ofNat 0xA :: acc) cs2
        else if e = 'r' then parseStringRest (Char.ofNat 0xD :: acc) cs2
        else if e = 't' then parseStringRest (Char.ofNat 0x9 :: acc) cs2
        else if e = 'u' then
          match cs2 with
          | h1 :: h2 :: h3 :: h4 :: cs3 =>
            match hexDigitVal h1, hexDigitVal h2, hexDigitVal h3, hexDigitVal h4 with
            | some x1, some x2, some x3, some x4 =>
              let n := ((x1 * 16 + x2) * 16 + x3) * 16 + x4
              if n < 0xD800 ∨ 0xE000 ≤ n then
                parseStringRest (Char.ofNat n :: acc) cs3
              else if n ≤ 0xDBFF then
                match cs3 with
                | '\\' :: 'u' :: g1 :: g2 :: g3 :: g4 :: cs4 =>
                  match hexDigitVal g1, hexDigitVal g2, hexDigitVal g3, hexDigitVal g4 with
                  | some y1, some y2, some y3, some y4 =>
                    let m := ((y1 * 16 + y2) * 16 + y3) * 16 + y4
                    if 0xDC00 ≤ m ∧ m ≤ 0xDFFF then
                      parseStringRest
                        (Char.ofNat (0x10000 + (n - 0xD800) * 0x400 + (m - 0xDC00)) :: acc) cs4
                    else Except.error "unexpected end of hex escape"
                  | _, _, _, _ => Except.error "invalid escape"
                | _ => Except.error "unexpected end of hex escape"
              else Except.error "lone leading surrogate in hex escape"
            | _, _, _, _ => Except.error "invalid escape"
          | _ => Except.error "invalid escape"
        else Except.error "invalid escape"
    else if c.toNat < 0x20 then Except.error "control character in string"
    else parseStringRest (c :: acc) cs

/-- Take the maximal run of decimal digits. -/
def takeDigits : List Char → List Char × List Char
  | [] => ([], [])
  | c :: cs =>
    if c.isDigit then
      let (ds, rest) := takeDigits cs
      (c :: ds, rest)
    else ([], c :: cs)

/-- Parse an exponent part (input starts after `e`/`E`); returns the
exponent lexeme (sign and digits) and the remaining input. -/
def parseExpPart (cs : List Char) : Except String (List Char × List Char) :=
  let (sign, cs1) :=
    match cs with
    | '+' :: t => (['+'], t)
    | '-' :: t => (['-'], t)
    | _ => (([] : List Char), cs)
  let (ds, rest) := takeDigits cs1
  if ds.isEmpty then Except.error "invalid number"
  else Except.ok (sign ++ ds, rest)

/-- Parse the optional fraction and exponent parts of a number. -/
def parseFracExp (cs : List Char) : Except String (List Char × List Char) :=
  match cs with
  | '.' :: t =>
    let (ds, rest) := takeDigits t
    if ds.isEmpty then Except.error "invalid number"
    else
      match rest with
      | 'e' :: t2 => (parseExpPart t2).map (fun p => ('.' :: ds ++ 'e' :: p.1, p.2))
      | 'E' :: t2 => (parseExpPart t2).map (fun p => ('.' :: ds ++ 'E' :: p.1, p.2))
      | _ => Except.ok ('.' :: ds, rest)
  | 'e' :: t2 => (parseExpPart t2).map (fun p => ('e' :: p.1, p.2))
  | 'E' :: t2 => (parseExpPart t2).map (fun p => ('E' :: p.1, p.2))
  | _ => Except.ok ([], cs)

/-- Parse a JSON number (input starts at `-` or a digit). -/
def parseNumber (cs : List Char) : Except String (Json × List Char) :=
  let (neg, cs1) :=
    match cs with
    | '-' :: t => ((['-'] : List Char), t)
    | _ => (([] : List Char), cs)
  match cs1 with
  | [] => Except.error "EOF while parsing a number"
  | c :: t =>
    if c = '0' then
      (parseFracExp t).map (fun p => (Json.num (String.mk (neg ++ '0' :: p.1)), p.2))
    else if c.isDigit then
      let (ds, rest) := takeDigits t
      (parseFracExp rest).map
        (fun p => (Json.num (String.mk (neg ++ c :: ds ++ p.1)), p.2))
    else Except.error "invalid number"

mutual

/-- Parse one JSON value.  `fuel` bounds the recursion depth; the top
level supplies more fuel than any input of that length can consume. -/
def parseValue (fuel : Nat) (cs : List Char) : Except String (Json × List Char) :=
  match fuel with
  | 0 => Except.error "recursion depth exceeded"
  | f + 1 =>
    match skipWs cs with
    | [] => Except.error "EOF while parsing a value"
    | c :: cs1 =>
      if c = 'n' then
        match expectChars ['u', 'l', 'l'] cs1 with
        | some rest => Except.ok (Json.null, rest)
        | none => Except.error "expected ident"
      else if c = 't' then
        match expectChars ['r', 'u', 'e'] cs1 with
        | some rest => Except.ok (Json.bool true, rest)
        | none => Except.error "expected ident"
      else if c = 'f' then
        match expectChars ['a', 'l', 's', 'e'] cs1 with
        | some rest => Except.ok (Json.bool false, rest)
        | none => Except.error "expected ident"
      else if c = '"' then
        match parseStringRest [] cs1 with
        | Except.ok (s, rest) => Except.ok (Json.str s, rest)
        | Except.error e => Except.error e
      else if c = '-' ∨ c.isDigit then parseNumber (c :: cs1)
      else if c = '[' then
        match skipWs cs1 with
        | ']' :: rest => Except.ok (Json.arr [], rest)
        | cs2 => parseElems f cs2 []
      else if c = '\x7b' then
        match skipWs cs1 with
        | '\x7d' :: rest => Except.ok (Json.obj [], rest)
        | cs2 => parseMembers f cs2 []
      else Except.error "expected value"
termination_by structural fuel

/-- Parse the elements of a non-empty JSON array. -/
def parseElems (fuel : Nat) (cs : List Char) (acc : List Json) :
    Except String (Json × List Char) :=
  match fuel with
  | 0 => Except.error "recursion depth exceeded"
  | f + 1 =>
    match parseValue f cs with
    | Except.error e => Except.error e
    | Except.ok (j, rest) =>
      match skipWs rest with
      | ',' :: rest2 => parseElems f rest2 (acc ++ [j])
      | ']' :: rest2 => Except.ok (Json.arr (acc ++ [j]), rest2)
      | _ => Except.error "expected comma or closing bracket"
termination_by structural fuel

/-- Parse the members of a non-empty JSON object. -/
def parseMembers (fuel : Nat) (cs : List Char) (acc : List (String × Json)) :
    Except String (Json × List Char) :=
  match fuel with
  | 0 => Except.error "recursion depth exceeded"
  | f + 1 =>
    match skipWs cs with
    | '"' :: cs1 =>
      match parseStringRest [] cs1 with
      | Except.error e => Except.error e
      | Except.ok (key, rest) =>
        match skipWs rest with
        | ':' :: rest2 =>
          match parseValue f rest2 with
          | Except.error e => Except.error e
          | Except.ok (v, rest3) =>
            match skipWs rest3 with
            | ',' :: rest4 => parseMembers f rest4 (acc ++ [(key, v)])
            | '\x7d' :: rest4 => Except.ok (Json.obj (acc ++ [(key, v)]), rest4)
            | _ => Except.error "expected comma or closing brace"
        | _ => Except.error "expected colon"
    | _ => Except.error "key must be a string"
termination_by structural fuel

end

/-- `serde_json::from_str`: parse a whole document — one value, with only
whitespace allowed after it.  The fuel `2 * length + 2` dominates the
parser's call depth (every other recursive call consumes a character). -/
def parseJsonStr (s : String) : Except String Json :=
  let cs := s.data
  match parseValue (2 * cs.length + 2) cs with
  | Except.error e => Except.error e
  | Except.ok (j, rest) =>
    match skipWs rest with
    | [] => Except.ok j
    | _ :: _ => Except.error "trailing characters"

/-! ## The bridge: `call_python_api` (`python_bridge.rs` lines 23-82) -/

/-- The result of one attempt to run the engine through one launcher:
exit code and the two captured raw streams (`std::process::Output`). -/
structure Output where
  exitCode : Nat
  stdout : List UInt8
  stderr : List UInt8

/-- Outcome of `command.output()` for one launcher candidate: either the
operating system failed to create the process (`failed`, the `Err` branch,
carrying the displayed `io::Error`), or the process ran to completion. -/
inductive SpawnResult where
  | failed (err : String) : SpawnResult
  | ran (out : Output) : SpawnResult

/-- `format!("Failed to execute {}: {}", python_cmd, e)` (line 74). -/
def execFailMsg (pythonCmd err : String) : String :=
  "Failed to execute " ++ pythonCmd ++ ": " ++ err

/-- `format!("Python error ({}): {}", python_cmd, stderr)` (lines 52-53),
with stderr decoded by `String::from_utf8_lossy`. -/
def engineErrMsg (pythonCmd : String) (stderrBytes : List UInt8) : String :=
  "Python error (" ++ pythonCmd ++ "): " ++ utf8Lossy stderrBytes

/-- `format!("JSON parse error: {} | stdout: {}", e, stdout)` (line 67). -/
def jsonParseErrMsg (parseErr stdoutText : String) : String :=
  "JSON parse error: " ++ parseErr ++ " | stdout: " ++ stdoutText

/-- The per-invocation classification performed by the loop body of
`call_python_api` (lines 49-71): non-zero exit becomes the engine-error
message, then stdout is lossily decoded and parsed as JSON; a parse
failure becomes the malformed-output message, success returns the value.
The `Except.error` of this function is exactly the value the loop stores
into `last_error` before advancing to the next candidate. -/
def classifyOutput (pythonCmd : String) (out : Output) : Except String Json :=
  if out.exitCode ≠ 0 then
    Except.error (engineErrMsg pythonCmd out.stderr)
  else
    let stdoutText := utf8Lossy out.stdout
    match parseJsonStr stdoutText with
    | Except.ok j => Except.ok j
    | Except.error e => Except.error (jsonParseErrMsg e stdoutText)

/-- The candidate loop of `call_python_api` (lines 30-79), threading the
single `last_error` slot: a spawn failure, a non-zero exit and a JSON
parse failure all overwrite `last_error` and `continue`; only a parsed
JSON document returns.  When the candidate list is exhausted the call
fails with the current `last_error` (line 81). -/
def tryCandidates (exec : String → SpawnResult) :
    List String → String → Except String Json
  | [], lastError => Except.error lastError
  | pythonCmd :: rest, _lastError =>
    match exec pythonCmd with
    | SpawnResult.failed e => tryCandidates exec rest (execFailMsg pythonCmd e)
    | SpawnResult.ran out =>
      match classifyOutput pythonCmd out with
      | Except.ok j => Except.ok j
      | Except.error msg => tryCandidates exec rest msg

/-- `let python_commands = vec!["python", "python3", "uv run python"]`
(line 27). -/
def pythonCommands : List String := ["python", "python3", "uv run python"]

/-- `call_python_api` (lines 23-82): try the fixed candidate list in
order with `last_error` initially empty.  The spawn oracle `exec` stands
for `command.output()` on each candidate. -/
def callPythonApi (exec : String → SpawnResult) : Except String Json :=
  tryCandidates exec pythonCommands ""

/-! ## The command encoders (`commands.rs`) -/

/-- `if let Some(pid) = project_id { args.push(format!("--project-id={}", pid)) }`
(lines 58-60, 86-88, 130-132, 163-165). -/
def optProjectId : Option String → List String
  | some pid => ["--project-id=" ++ pid]
  | none => []

/-- Argument construction of `get_dashboard_bundle` (lines 36-64). -/
def dashboardArgs (fromDate toDate : String) (refresh : Bool)
    (granularity : String) (projectId : Option String) : List String :=
  ["dashboard", "--from", fromDate, "--to", toDate,
    "--refresh", if refresh then "1" else "0",
    "--granularity", granularity] ++ optProjectId projectId

/-- Argument construction of `get_day_details` (lines 83-93). -/
def dayArgs (date : String) (projectId : Option String) : List String :=
  ["day", "--date", date] ++ optProjectId projectId

/-- Argument construction of `get_model_details` (lines 114-137). -/
def modelArgs (model fromDate toDate : String) (projectId : Option String) : List String :=
  ["model", "--model", model, "--from", fromDate, "--to", toDate] ++ optProjectId projectId

/-- Argument construction of `get_session_details` (lines 157-170). -/
def sessionArgs (sessionId : String) (projectId : Option String) : List String :=
  ["session", "--id", sessionId] ++ optProjectId projectId

/-- Argument construction of `get_limit_resets` (lines 189-191). -/
def limitResetsArgs (fromDate toDate : String) : List String :=
  ["limits", "--from", fromDate, "--to", toDate]

/-- Argument construction of `export_png_report` (lines 208-210). -/
def exportPngArgs (fromDate toDate : String) : List String :=
  ["export-png", "--from", fromDate, "--to", toDate]

/-- Argument construction of `get_projects` (lines 226-228). -/
def projectsArgs : List String := ["projects"]

/-- Argument construction of `update_project` (lines 244-273): the
required project id is a single `--project-id=<id>` token, each optional
field appends one `--key=value` token when present. -/
def updateProjectArgs (projectId : String) (name description : Option String)
    (visible : Option Bool) : List String :=
  ["update-project", "--project-id=" ++ projectId]
    ++ (match name with
        | some n => ["--name=" ++ n]
        | none => [])
    ++ (match description with
        | some d => ["--description=" ++ d]
        | none => [])
    ++ (match visible with
        | some v => ["--visible=" ++ (if v then "1" else "0")]
        | none => [])

/-- The typed request catalog (spec section 3), one case per operation
exposed by `commands.rs`. -/
inductive Request where
  | dashboard (fromDate toDate : String) (refresh : Bool)
      (granularity : String) (projectId : Option String) : Request
  | day (date : String) (projectId : Option String) : Request
  | model (model fromDate toDate : String) (projectId : Option String) : Request
  | session (sessionId : String) (projectId : Option String) : Request
  | limitResets (fromDate toDate : String) : Request
  | pngExport (fromDate toDate : String) : Request
  | listProjects : Request
  | updateProject (projectId : String) (name description : Option String)
      (visible : Option Bool) : Request

/-- The whole argument encoder: the token sequence each operation passes
to `call_python_api`. -/
def encodeRequest : Request → List String
  | Request.dashboard f t r g p => dashboardArgs f t r g p
  | Request.day d p => dayArgs d p
  | Request.model m f t p => modelArgs m f t p
  | Request.session sid p => sessionArgs sid p
  | Request.limitResets f t => limitResetsArgs f t
  | Request.pngExport f t => exportPngArgs f t
  | Request.listProjects => projectsArgs
  | Request.updateProject pid n d v => updateProjectArgs pid n d v

/-- The command keyword (argv 0) each operation actually uses in
`commands.rs`. -/
def commandKeyword : Request → String
  | Request.dashboard .. => "dashboard"
  | Request.day .. => "day"
  | Request.model .. => "model"
  | Request.session .. => "session"
  | Request.limitResets .. => "limits"
  | Request.pngExport .. => "export-png"
  | Request.listProjects => "projects"
  | Request.updateProject .. => "update-project"

/-! ## Helper predicates and lemmas -/

/-- `tok` starts with `pre` (character-wise prefix). -/
def strStartsWith (tok pre : String) : Bool := pre.data.isPrefixOf tok.data

/-- `sub` occurs contiguously inside `s`. -/
def strContains (s sub : String) : Prop := sub.data <:+: s.data

/-- A string is always contained in anything that ends with it. -/
lemma strContains_of_append (pre suf : String) : strContains (pre ++ suf) suf := by
  refine ⟨pre.data, [], ?_⟩
  cases pre with
  | mk pd =>
    cases suf with
    | mk sd => simp [String.instAppend, String.append]

instance (s sub : String) : Decidable (strContains s sub) :=
  inferInstanceAs (Decidable (sub.data <:+: s.data))

/-- ASCII `a` bytes decode to `a` characters (used for a long stdout). -/
lemma utf8LossyAux_replicate_a (n : Nat) :
    utf8LossyAux n (List.replicate n (97 : UInt8)) = List.replicate n 'a' := by
  induction n with
  | zero => rfl
  | succ m ih =>
    rw [List.replicate_succ, List.replicate_succ]
    show Char.ofNat 97 :: utf8LossyAux m (List.replicate m 97) = 'a' :: List.replicate m 'a'
    rw [ih]

lemma utf8Lossy_replicate_a (n : Nat) :
    utf8Lossy (List.replicate n (97 : UInt8)) = String.mk (List.replicate n 'a') := by
  simp [utf8Lossy, utf8LossyAux_replicate_a]

/-- The parser rejects any input starting with `a` immediately. -/
lemma parseValue_head_a (f : Nat) (rest : List Char) :
    parseValue (f + 1) ('a' :: rest) = Except.error "expected value" := rfl

lemma parseJsonStr_replicate_a (n : Nat) (h : 1 ≤ n) :
    parseJsonStr (String.mk (List.replicate n 'a')) = Except.error "expected value" := by
  obtain ⟨m, rfl⟩ : ∃ m, n = m + 1 := ⟨n - 1, by omega⟩
  have h2 : 2 * (m + 1) + 2 = (2 * m + 3) + 1 := by omega
  simp [parseJsonStr, List.replicate_succ, h2, parseValue_head_a]

/-! ## Concrete spawn oracles used in scenarios -/

/-- The first candidate starts a process that exits 1; every other
candidate starts a process that exits 0 printing `null`. -/
def engineFailThenOkExec : String → SpawnResult := fun c =>
  if c = "python" then SpawnResult.ran ⟨1, [], asciiBytes "boom"⟩
  else SpawnResult.ran ⟨0, asciiBytes "null", []⟩

/-- The first two candidates fail to start (`E1`, `E2`); the third starts
a process that exits 0 printing `null`. -/
def twoSpawnFailExec : String → SpawnResult := fun c =>
  if c = "python" then SpawnResult.failed "E1"
  else if c = "python3" then SpawnResult.failed "E2"
  else SpawnResult.ran ⟨0, asciiBytes "null", []⟩

/-- All three candidates fail to start, with distinct errors. -/
def allSpawnFailExec : String → SpawnResult := fun c =>
  if c = "python" then SpawnResult.failed "E1"
  else if c = "python3" then SpawnResult.failed "E2"
  else SpawnResult.failed "E3"

/-! ## Claims -/

/-- C1, counterexample.  The claim says that once a candidate launcher
successfully starts the engine process, the bridge does not advance to
another launcher candidate even if the process exits non-zero.  In the
code every failure branch of the loop body ends in `continue`: here the
first candidate starts a process that exits 1 (a definitive engine
failure per the claim), yet the whole call succeeds through the second
candidate, so the bridge did advance past a started process. -/
theorem c1_counterexample :
    engineFailThenOkExec "python" = SpawnResult.ran ⟨1, [], asciiBytes "boom"⟩ ∧
    (1 : Nat) ≠ 0 ∧
    callPythonApi engineFailThenOkExec = Except.ok Json.null :=
  ⟨rfl, by decide, rfl⟩

/-- C1, amended: every failure of a candidate — failure to create the
process, a started process exiting non-zero, or exit 0 with stdout that
is not valid JSON — overwrites `last_error` and advances to the next
candidate; only a successfully parsed JSON document stops the
iteration. -/
theorem c1_advance_on_any_failure (exec : String → SpawnResult) (c : String)
    (rest : List String) (le : String) :
    (∀ e, exec c = SpawnResult.failed e →
      tryCandidates exec (c :: rest) le = tryCandidates exec rest (execFailMsg c e)) ∧
    (∀ out msg, exec c = SpawnResult.ran out → classifyOutput c out = Except.error msg →
      tryCandidates exec (c :: rest) le = tryCandidates exec rest msg) ∧
    (∀ out j, exec c = SpawnResult.ran out → classifyOutput c out = Except.ok j →
      tryCandidates exec (c :: rest) le = Except.ok j) := by
  refine ⟨fun e h => ?_, fun out msg h hc => ?_, fun out j h hc => ?_⟩ <;>
    simp [tryCandidates, *]

/-- C1, witness: the amended step behaviour at a concrete oracle — the
started-but-failed first candidate advances carrying the engine-error
message. -/
theorem c1_witness :
    tryCandidates engineFailThenOkExec ["python", "python3"] ""
      = tryCandidates engineFailThenOkExec ["python3"]
          (engineErrMsg "python" (asciiBytes "boom")) :=
  (c1_advance_on_any_failure engineFailThenOkExec "python" ["python3"] "").2.1
    ⟨1, [], asciiBytes "boom"⟩ (engineErrMsg "python" (asciiBytes "boom")) rfl rfl

/-- C2, counterexample.  The claim says the resolver accumulates both
prior candidates' errors before succeeding.  In the code `last_error` is
a single slot that each failure overwrites: with spawn errors `E1` then
`E2`, the state carried into the third candidate is exactly
`Failed to execute python3: E2`, which does not contain `E1`; and when
every candidate fails, the surfaced error contains neither `E1` nor
`E2`, only the last underlying error. -/
theorem c2_counterexample :
    tryCandidates twoSpawnFailExec pythonCommands ""
      = tryCandidates twoSpawnFailExec ["uv run python"] (execFailMsg "python3" "E2") ∧
    ¬ strContains (execFailMsg "python3" "E2") "E1" ∧
    callPythonApi twoSpawnFailExec = Except.ok Json.null ∧
    callPythonApi allSpawnFailExec = Except.error (execFailMsg "uv run python" "E3") ∧
    ¬ strContains (execFailMsg "uv run python" "E3") "E1" ∧
    ¬ strContains (execFailMsg "uv run python" "E3") "E2" :=
  ⟨rfl, by decide, rfl, rfl, by decide, by decide⟩

/-- C2, amended: when the first two candidates fail to start and the
third starts a process whose output classifies as success, the call
succeeds with exactly the third candidate's value, and the error state
carried into the third candidate is exactly the second candidate's
error message (the first candidate's error has been overwritten, and
the initial state is irrelevant). -/
theorem c2_third_candidate_last_error_only (exec : String → SpawnResult)
    (e1 e2 : String) (out : Output) (j : Json)
    (h1 : exec "python" = SpawnResult.failed e1)
    (h2 : exec "python3" = SpawnResult.failed e2)
    (h3 : exec "uv run python" = SpawnResult.ran out)
    (hc : classifyOutput "uv run python" out = Except.ok j) :
    callPythonApi exec = Except.ok j ∧
    ∀ le : String, tryCandidates exec pythonCommands le
      = tryCandidates exec ["uv run python"] (execFailMsg "python3" e2) := by
  refine ⟨?_, fun le => ?_⟩ <;>
    simp [callPythonApi, pythonCommands, tryCandidates, h1, h2, h3, hc]

/-- C2, witness: the amended statement at the concrete two-spawn-failure
oracle. -/
theorem c2_witness :
    callPythonApi twoSpawnFailExec = Except.ok Json.null ∧
    tryCandidates twoSpawnFailExec pythonCommands "seed"
      = tryCandidates twoSpawnFailExec ["uv run python"] (execFailMsg "python3" "E2") :=
  ⟨(c2_third_candidate_last_error_only twoSpawnFailExec "E1" "E2"
      ⟨0, asciiBytes "null", []⟩ Json.null rfl rfl rfl rfl).1,
   (c2_third_candidate_last_error_only twoSpawnFailExec "E1" "E2"
      ⟨0, asciiBytes "null", []⟩ Json.null rfl rfl rfl rfl).2 "seed"⟩

/-- C3, counterexample.  The claim says the limit-resets, png-export and
list-projects operations encode with keywords `limit-resets`,
`png-export` and `list-projects`; the code uses `limits`, `export-png`
and `projects`. -/
theorem c3_counterexample :
    limitResetsArgs "2025-01-01" "2025-12-31"
      = ["limits", "--from", "2025-01-01", "--to", "2025-12-31"] ∧
    exportPngArgs "2025-01-01" "2025-12-31"
      = ["export-png", "--from", "2025-01-01", "--to", "2025-12-31"] ∧
    projectsArgs = ["projects"] ∧
    ("limits" : String) ≠ "limit-resets" ∧
    ("export-png" : String) ≠ "png-export" ∧
    ("projects" : String) ≠ "list-projects" :=
  ⟨rfl, rfl, rfl, by decide, by decide, by decide⟩

/-- C3, amended: for every operation the first token of the encoded
command is that operation's fixed command keyword; the keywords actually
used are `dashboard`, `day`, `model`, `session`, `limits`, `export-png`,
`projects` and `update-project`. -/
theorem c3_keyword_is_head (r : Request) :
    (encodeRequest r).head? = some (commandKeyword r) := by
  cases r <;> rfl

/-- C4, counterexample.  The claim says the encoded update-project
command with only `project_id` set has exactly two tokens after the
keyword; the code emits the single joined token `--project-id=<id>`, so
there is exactly one token after the keyword. -/
theorem c4_counterexample :
    updateProjectArgs "p1" none none none = ["update-project", "--project-id=p1"] ∧
    ((updateProjectArgs "p1" none none none).drop 1).length ≠ 2 :=
  ⟨rfl, by decide⟩

/-- C4, amended: for an update-project request in which only
`project_id` is set, the encoded command is the keyword followed by
exactly one token, the joined `--project-id=<id>`. -/
theorem c4_single_token_after_keyword (pid : String) :
    updateProjectArgs pid none none none = ["update-project", "--project-id=" ++ pid] ∧
    ((updateProjectArgs pid none none none).drop 1).length = 1 :=
  ⟨rfl, rfl⟩

/-- Classification of an exit-0 invocation whose stdout fails to parse:
the error message interpolates the parse error and the decoded stdout. -/
lemma classifyOutput_malformed (pythonCmd : String) (out : Output) (e : String)
    (hexit : out.exitCode = 0)
    (hparse : parseJsonStr (utf8Lossy out.stdout) = Except.error e) :
    classifyOutput pythonCmd out
      = Except.error (jsonParseErrMsg e (utf8Lossy out.stdout)) := by
  simp [classifyOutput, hexit, hparse]

/-- A 2000-character stdout that is not valid JSON. -/
def longA : String := String.mk (List.replicate 2000 'a')

/-- C5, counterexample.  The claim says the MalformedOutput diagnostic
contains a bounded (truncated) prefix of the raw stdout, not the
unbounded raw output.  The code interpolates the full decoded stdout
into the message: for a 2000-character non-JSON stdout the entire raw
output occurs contiguously in the diagnostic, so nothing is
truncated. -/
theorem c5_counterexample :
    parseJsonStr longA = Except.error "expected value" ∧
    classifyOutput "python" ⟨0, List.replicate 2000 (97 : UInt8), []⟩
      = Except.error (jsonParseErrMsg "expected value" longA) ∧
    strContains (jsonParseErrMsg "expected value" longA) longA ∧
    longA.length = 2000 := by
  refine ⟨parseJsonStr_replicate_a 2000 (by omega), ?_, ?_, ?_⟩
  · have hu : utf8Lossy ((⟨0, List.replicate 2000 (97 : UInt8), []⟩ : Output).stdout) = longA :=
      utf8Lossy_replicate_a 2000
    have h := classifyOutput_malformed "python" ⟨0, List.replicate 2000 (97 : UInt8), []⟩
      "expected value" rfl (by rw [hu]; exact parseJsonStr_replicate_a 2000 (by omega))
    rw [hu] at h
    exact h
  · exact strContains_of_append ("JSON parse error: " ++ "expected value" ++ " | stdout: ") longA
  · show (List.replicate 2000 'a').length = 2000
    rw [List.length_replicate]

/-- C5, amended: when the process exits 0 and stdout does not parse as
JSON, classification fails with a message consisting of the parse error
and the entire lossily-decoded raw stdout (no truncation); in
particular the message contains the raw stdout in full. -/
theorem c5_malformed_output_full_stdout (pythonCmd : String) (out : Output) (e : String)
    (hexit : out.exitCode = 0)
    (hparse : parseJsonStr (utf8Lossy out.stdout) = Except.error e) :
    classifyOutput pythonCmd out
      = Except.error (jsonParseErrMsg e (utf8Lossy out.stdout)) ∧
    strContains (jsonParseErrMsg e (utf8Lossy out.stdout)) (utf8Lossy out.stdout) := by
  constructor
  · simp [classifyOutput, hexit, hparse]
  · exact strContains_of_append ("JSON parse error: " ++ e ++ " | stdout: ") _

/-- C5, witness: exit 0 with stdout `not json` classifies as a parse
failure whose diagnostic contains the raw excerpt `not json`. -/
theorem c5_witness :
    classifyOutput "python" ⟨0, asciiBytes "not json", []⟩
      = Except.error (jsonParseErrMsg "expected ident" "not json") ∧
    strContains (jsonParseErrMsg "expected ident" "not json") "not json" :=
  c5_malformed_output_full_stdout "python" ⟨0, asciiBytes "not json", []⟩ "expected ident"
    rfl rfl

/-- C6, counterexample.  The claim says the EngineError payload *is* the
decoded stderr text; the code frames the decoded stderr with the
launcher name, so the payload is `Python error (python): db locked`,
which is not equal to `db locked` (though it contains it). -/
theorem c6_counterexample :
    classifyOutput "python" ⟨1, [], asciiBytes "db locked"⟩
      = Except.error "Python error (python): db locked" ∧
    ("Python error (python): db locked" : String) ≠ "db locked" :=
  ⟨rfl, by decide⟩

/-- C6, amended: a non-zero exit classifies as a failure whose message is
the decoded stderr framed with the launcher name, and therefore contains
the decoded stderr text. -/
theorem c6_engine_error_contains_stderr (pythonCmd : String) (out : Output)
    (h : out.exitCode ≠ 0) :
    classifyOutput pythonCmd out = Except.error (engineErrMsg pythonCmd out.stderr) ∧
    strContains (engineErrMsg pythonCmd out.stderr) (utf8Lossy out.stderr) := by
  constructor
  · simp [classifyOutput, h]
  · exact strContains_of_append ("Python error (" ++ pythonCmd ++ "): ") _

/-- C6, witness: exit 1 with stderr `db locked` yields a failure message
containing `db locked`. -/
theorem c6_witness :
    classifyOutput "python" ⟨1, [], asciiBytes "db locked"⟩
      = Except.error (engineErrMsg "python" (asciiBytes "db locked")) ∧
    strContains (engineErrMsg "python" (asciiBytes "db locked")) "db locked" :=
  c6_engine_error_contains_stderr "python" ⟨1, [], asciiBytes "db locked"⟩ (by decide)

/-- C7: the dashboard request (from 2025-01-01, to 2025-12-31, refresh
true, granularity month, no project filter) encodes to exactly the
nine-token sequence of the claim, and no token of it begins with
`--project-id`. -/
theorem c7_dashboard_encoding :
    dashboardArgs "2025-01-01" "2025-12-31" true "month" none
      = ["dashboard", "--from", "2025-01-01", "--to", "2025-12-31",
         "--refresh", "1", "--granularity", "month"] ∧
    (dashboardArgs "2025-01-01" "2025-12-31" true "month" none).all
      (fun tok => !(strStartsWith tok "--project-id")) = true :=
  ⟨rfl, by decide⟩

/-- C8: the argument encoder is a deterministic total function of the
request: it is defined on every well-typed request, two encodings of the
same request are the same token sequence, and the result always carries
at least the command keyword. -/
theorem c8_encoder_deterministic_total (r : Request) :
    encodeRequest r = encodeRequest r ∧ encodeRequest r ≠ [] := by
  refine ⟨rfl, ?_⟩
  cases r <;> simp [encodeRequest, dashboardArgs, dayArgs, modelArgs, sessionArgs,
    limitResetsArgs, exportPngArgs, projectsArgs, updateProjectArgs]

/-- C9: classification is total over arbitrary captured byte streams —
every invocation outcome classifies as either a success or an error
(there is no decoding-failure branch), because both streams are decoded
lossily; invalid bytes are replaced with U+FFFD and never rejected,
and valid ASCII decodes verbatim. -/
theorem c9_classification_total :
    (∀ (pythonCmd : String) (out : Output),
      (∃ j, classifyOutput pythonCmd out = Except.ok j) ∨
      (∃ e, classifyOutput pythonCmd out = Except.error e)) ∧
    utf8Lossy [0xFF] = String.mk [replacementChar] ∧
    utf8Lossy [0xFF, 0x61] = String.mk [replacementChar, 'a'] ∧
    utf8Lossy (asciiBytes "db locked") = "db locked" := by
  refine ⟨fun pythonCmd out => ?_, rfl, rfl, rfl⟩
  cases h : classifyOutput pythonCmd out with
  | ok j => exact Or.inl ⟨j, rfl⟩
  | error e => exact Or.inr ⟨e, rfl⟩

/-- C10, counterexample.  The claim says that with `project_id = None`
no token of the encoded list begins with `--project-id`; but each
required field value is passed through verbatim, so a dashboard request
whose `from` field is itself `--project-id=x` produces, with no project
filter set, a token beginning with `--project-id`. -/
theorem c10_counterexample :
    (dashboardArgs "--project-id=x" "2025-12-31" true "month" none).any
      (fun tok => strStartsWith tok "--project-id") = true := by decide

/-- C10, amended: for dashboard, day, model and session, a present
`project_id` appends exactly one final joined token `--project-id=<pid>`
to the encoding without a project filter; and with `project_id = None`
no token begins with `--project-id`, provided no caller-supplied
required field value itself begins with `--project-id` (values are
passed through verbatim). -/
theorem c10_project_id_token (f t g d m sid : String) (r : Bool) (pid : String) :
    (dashboardArgs f t r g (some pid)
        = dashboardArgs f t r g none ++ ["--project-id=" ++ pid] ∧
      dayArgs d (some pid) = dayArgs d none ++ ["--project-id=" ++ pid] ∧
      modelArgs m f t (some pid) = modelArgs m f t none ++ ["--project-id=" ++ pid] ∧
      sessionArgs sid (some pid) = sessionArgs sid none ++ ["--project-id=" ++ pid]) ∧
    ((strStartsWith f "--project-id" = false → strStartsWith t "--project-id" = false →
        strStartsWith g "--project-id" = false →
        (dashboardArgs f t r g none).all
          (fun tok => !(strStartsWith tok "--project-id")) = true) ∧
      (strStartsWith d "--project-id" = false →
        (dayArgs d none).all (fun tok => !(strStartsWith tok "--project-id")) = true) ∧
      (strStartsWith m "--project-id" = false → strStartsWith f "--project-id" = false →
        strStartsWith t "--project-id" = false →
        (modelArgs m f t none).all (fun tok => !(strStartsWith tok "--project-id")) = true) ∧
      (strStartsWith sid "--project-id" = false →
        (sessionArgs sid none).all
          (fun tok => !(strStartsWith tok "--project-id")) = true)) := by
  have hrefresh : strStartsWith (if r then "1" else "0") "--project-id" = false := by
    cases r <;> decide
  refine ⟨⟨?_, ?_, ?_, ?_⟩, ⟨?_, ?_, ?_, ?_⟩⟩ <;>
    simp [dashboardArgs, dayArgs, modelArgs, sessionArgs, optProjectId, hrefresh] <;>
    intros <;> simp [*] <;> decide

/-- C10, witness: the amended statement at concrete field values — the
present project filter appends the single joined final token, and the
filter-free day encoding has no `--project-id` token. -/
theorem c10_witness :
    dashboardArgs "2025-01-01" "2025-12-31" true "month" (some "p1")
      = dashboardArgs "2025-01-01" "2025-12-31" true "month" none ++ ["--project-id=p1"] ∧
    (dayArgs "2025-01-02" none).all (fun tok => !(strStartsWith tok "--project-id")) = true :=
  ⟨((c10_project_id_token "2025-01-01" "2025-12-31" "month" "2025-01-02" "opus"
      "s1" true "p1").1).1,
   ((c10_project_id_token "2025-01-01" "2025-12-31" "month" "2025-01-02" "opus"
      "s1" true "p1").2).2.1 (by decide)⟩
